import Mathlib

/-!
Shallow embedding of the ticket API service (src/index.js).

The service keeps a single JSON file (tickets.json) holding an array of
ticket objects, and exposes three HTTP operations: POST /tickets (create),
GET /tickets (list), GET /health.  We embed the file's observable content,
the three file helpers (initializeTicketsFile, readTickets, writeTickets)
and the two request handlers as pure state-passing functions.  File-system
effects (file missing, unreadable, unwritable) and the values supplied by
the environment (uuidv4 identifiers, toISOString timestamps) are explicit
parameters.  Console logging of caught errors is modelled by a Boolean
component of each result.
-/

/-- A ticket record, as constructed by the POST /tickets handler and
persisted in tickets.json: `{id, title, description, createdAt}`. -/
structure Ticket where
  id : String
  title : String
  description : String
  createdAt : String
deriving DecidableEq, Repr

/-- A JSON field of the request body as the handler's destructuring sees it:
absent (undefined), JSON null, or a string value. -/
inductive JField
  | absent
  | null
  | str (s : String)
deriving DecidableEq, Repr

/-- JavaScript truthiness test `!x` used by the validation
`if (!title || !description)`: undefined, null and the empty string are
falsy; a non-empty string is truthy. -/
def jsFalsy : JField → Bool
  | JField.absent => true
  | JField.null => true
  | JField.str s => s == ""

/-- The string carried by a field (the handler only reads it on the truthy
branch, where the field is a non-empty string). -/
def JField.asString : JField → String
  | JField.str s => s
  | _ => ""

/-- Observable content of tickets.json: the file may be missing, present
but unreadable, present but not valid JSON, valid JSON that is not an
array, or a JSON array of ticket objects. -/
inductive FileContent
  | absent
  | unreadable
  | corrupt
  | jsonNonArray
  | arr (ts : List Ticket)
deriving DecidableEq, Repr

/-- fs.existsSync on the tickets file: true in every state except a
missing file. -/
def existsSync : FileContent → Bool
  | FileContent.absent => false
  | _ => true

/-- initializeTicketsFile: if the file does not exist, write `[]`;
otherwise leave it untouched. -/
def initializeTicketsFile (fc : FileContent) : FileContent :=
  if existsSync fc then fc else FileContent.arr []

/-- What JSON.parse of the file yields when readFileSync succeeds: either
an array of tickets or some non-array JSON value. -/
inductive ReadResult
  | arr (ts : List Ticket)
  | nonArray
deriving DecidableEq, Repr

/-- readTickets: readFileSync + JSON.parse inside try/catch.  A missing,
unreadable or unparseable file makes the catch branch log the error and
return `[]`; valid JSON is returned as parsed, unguarded.  The Boolean is
true when the catch branch logged "Error reading tickets". -/
def readTickets : FileContent → ReadResult × Bool
  | FileContent.absent => (ReadResult.arr [], true)
  | FileContent.unreadable => (ReadResult.arr [], true)
  | FileContent.corrupt => (ReadResult.arr [], true)
  | FileContent.jsonNonArray => (ReadResult.nonArray, false)
  | FileContent.arr ts => (ReadResult.arr ts, false)

/-- writeTickets: writeFileSync inside try/catch.  `writable` says whether
the storage medium accepts the write; on failure the catch branch logs
"Error writing tickets" (Boolean true) and the file keeps its previous
content.  The error is never rethrown to the caller. -/
def writeTickets (writable : Bool) (tickets : List Ticket)
    (fc : FileContent) : FileContent × Bool :=
  if writable then (FileContent.arr tickets, false) else (fc, true)

/-- Outcome of the POST /tickets handler: a 400 response with an error
message, a 201 response carrying the created ticket, or an exception
raised inside the handler (tickets.push on a non-array), which produces
no response from the handler's own code. -/
inductive PostResponse
  | badRequest (error : String)
  | created (t : Ticket)
  | raised
deriving DecidableEq, Repr

/-- The POST /tickets handler.  `id` is the uuidv4() value and `createdAt`
the toISOString() value supplied by the environment for this request;
`writable` is the storage medium's state.  Returns the response, the file
content after the request, and whether any persistence error was logged. -/
def postTickets (id createdAt : String) (writable : Bool)
    (title description : JField) (fc : FileContent) :
    PostResponse × FileContent × Bool :=
  if jsFalsy title || jsFalsy description then
    (PostResponse.badRequest "Title and description are required fields", fc, false)
  else
    let newTicket : Ticket :=
      ⟨id, title.asString, description.asString, createdAt⟩
    match readTickets fc with
    | (ReadResult.nonArray, rlog) => (PostResponse.raised, fc, rlog)
    | (ReadResult.arr tickets, rlog) =>
      let w := writeTickets writable (tickets ++ [newTicket]) fc
      (PostResponse.created newTicket, w.1, rlog || w.2)

/-- Outcome of the GET /tickets handler: a 200 response whose JSON body is
the value readTickets returned — an array of tickets, or whatever
non-array value the file parsed to. -/
inductive GetResponse
  | okList (ts : List Ticket)
  | okNonArray
deriving DecidableEq, Repr

/-- The GET /tickets handler: res.json(readTickets()).  The Boolean is
true when readTickets logged a read failure. -/
def getTickets (fc : FileContent) : GetResponse × Bool :=
  match readTickets fc with
  | (ReadResult.arr ts, logged) => (GetResponse.okList ts, logged)
  | (ReadResult.nonArray, logged) => (GetResponse.okNonArray, logged)

/-- One create request together with the environment it runs under: the
uuidv4 value, the body fields, the timestamp, and whether storage is
writable during the request. -/
structure Req where
  id : String
  title : JField
  description : JField
  createdAt : String
  writable : Bool
deriving DecidableEq, Repr

/-- The ticket the handler constructs for a request. -/
def mkTicket (r : Req) : Ticket :=
  ⟨r.id, r.title.asString, r.description.asString, r.createdAt⟩

/-- Run one create request against the current file content. -/
def step (r : Req) (fc : FileContent) : PostResponse × FileContent × Bool :=
  postTickets r.id r.createdAt r.writable r.title r.description fc

/-- Final file content after a sequence of create requests.  The handler
body is fully synchronous (readFileSync/writeFileSync, no await), so under
the runtime's run-to-completion scheduling, concurrent requests execute as
a sequence in some arrival order; quantifying over the request list covers
every such order. -/
def runReqs : List Req → FileContent → FileContent
  | [], fc => fc
  | r :: rs, fc => runReqs rs (step r fc).2.1

/-- The responses produced by a sequence of create requests, in order. -/
def runResponses : List Req → FileContent → List PostResponse
  | [], _ => []
  | r :: rs, fc => (step r fc).1 :: runResponses rs (step r fc).2.1

/-- A request whose body passes validation and whose write will land. -/
def reqValid (r : Req) : Prop :=
  jsFalsy r.title = false ∧ jsFalsy r.description = false ∧ r.writable = true

/-! Theorems settling the claims. -/

/-- C3.  Whenever the body's title or description is absent, null, or the
empty string (in any combination), the POST /tickets handler returns the
400 response with the descriptive error message, no file read or write is
attempted (so the Store's create is never invoked and nothing is logged),
and the persisted collection is unchanged. -/
theorem post_invalid_rejected_store_untouched
    (id createdAt : String) (writable : Bool) (title description : JField)
    (fc : FileContent)
    (h : jsFalsy title = true ∨ jsFalsy description = true) :
    postTickets id createdAt writable title description fc =
      (PostResponse.badRequest "Title and description are required fields",
        fc, false) := by
  unfold postTickets
  rcases h with h | h <;> simp [h]

/-- Witness for C3: a request with a null title and valid description is
rejected with the 400 message and leaves the file unchanged. -/
theorem post_invalid_rejected_store_untouched_witness :
    postTickets "u1" "2025-01-01T00:00:00.000Z" true JField.null
        (JField.str "d") (FileContent.arr []) =
      (PostResponse.badRequest "Title and description are required fields",
        FileContent.arr [], false) :=
  post_invalid_rejected_store_untouched "u1" "2025-01-01T00:00:00.000Z" true
    JField.null (JField.str "d") (FileContent.arr []) (Or.inl rfl)

/-- C5.  initializeTicketsFile is idempotent: applying it twice equals
applying it once; on a missing file it creates the empty collection; and
on any existing state (in particular a non-empty collection) it leaves the
persisted state unchanged. -/
theorem initializeTicketsFile_idempotent (fc : FileContent) :
    initializeTicketsFile (initializeTicketsFile fc) =
        initializeTicketsFile fc ∧
      initializeTicketsFile FileContent.absent = FileContent.arr [] ∧
      (fc ≠ FileContent.absent → initializeTicketsFile fc = fc) := by
  cases fc <;> simp [initializeTicketsFile, existsSync]

/-- Witness for C5: a file already holding one ticket is left unchanged. -/
theorem initializeTicketsFile_idempotent_witness :
    initializeTicketsFile (FileContent.arr [⟨"u1", "t", "d", "c"⟩]) =
      FileContent.arr [⟨"u1", "t", "d", "c"⟩] :=
  (initializeTicketsFile_idempotent
      (FileContent.arr [⟨"u1", "t", "d", "c"⟩])).2.2 (by decide)

/-- C7.  On a corrupt (malformed JSON) or unreadable persisted file, the
GET /tickets handler logs the read failure and still completes with the
200 response carrying an empty list. -/
theorem get_corrupt_logs_and_returns_empty :
    getTickets FileContent.corrupt = (GetResponse.okList [], true) ∧
      getTickets FileContent.unreadable = (GetResponse.okList [], true) := by
  constructor <;> rfl

/-- C10.  When the file holds valid JSON that is not an array, a create
request with valid inputs raises inside the handler at the append step
(tickets.push is not a function on the parsed value): no response is
produced by the handler's code and the file is unchanged. -/
theorem post_nonarray_state_raises
    (id createdAt : String) (writable : Bool) (title description : String)
    (ht : title ≠ "") (hd : description ≠ "") :
    postTickets id createdAt writable (JField.str title)
        (JField.str description) FileContent.jsonNonArray =
      (PostResponse.raised, FileContent.jsonNonArray, false) := by
  unfold postTickets
  simp [jsFalsy, ht, hd, readTickets]

/-- Witness for C10: a concrete valid create against a non-array file. -/
theorem post_nonarray_state_raises_witness :
    postTickets "u1" "2025-01-01T00:00:00.000Z" true (JField.str "t")
        (JField.str "d") FileContent.jsonNonArray =
      (PostResponse.raised, FileContent.jsonNonArray, false) :=
  post_nonarray_state_raises "u1" "2025-01-01T00:00:00.000Z" true "t" "d"
    (by decide) (by decide)

/-- C1, counterexample.  With valid inputs and unwritable storage, the
handler still returns the 201 created response carrying the new ticket
even though the durable write did not happen: the file still holds the
empty collection afterwards (and the write error was merely logged). -/
theorem post_write_failure_still_201_counterexample :
    postTickets "u1" "2025-01-01T00:00:00.000Z" false (JField.str "t")
        (JField.str "d") (FileContent.arr []) =
      (PostResponse.created ⟨"u1", "t", "d", "2025-01-01T00:00:00.000Z"⟩,
        FileContent.arr [], true) := by
  rfl

/-- C1, amended.  For every create request with valid inputs against an
array-valued file, when the write fails the failure is only logged:
the handler returns the 201 created response with the new ticket while
the persisted collection remains unchanged. -/
theorem post_write_failure_logged_not_surfaced
    (id createdAt : String) (title description : String) (ts : List Ticket)
    (ht : title ≠ "") (hd : description ≠ "") :
    postTickets id createdAt false (JField.str title)
        (JField.str description) (FileContent.arr ts) =
      (PostResponse.created ⟨id, title, description, createdAt⟩,
        FileContent.arr ts, true) := by
  unfold postTickets
  simp [jsFalsy, ht, hd, readTickets, writeTickets, JField.asString]

/-- Witness for the amended C1: a concrete failed write on a one-ticket
file returns 201 and leaves the file as it was. -/
theorem post_write_failure_logged_not_surfaced_witness :
    postTickets "u2" "2025-01-02T00:00:00.000Z" false (JField.str "t2")
        (JField.str "d2") (FileContent.arr [⟨"u1", "t", "d", "c"⟩]) =
      (PostResponse.created ⟨"u2", "t2", "d2", "2025-01-02T00:00:00.000Z"⟩,
        FileContent.arr [⟨"u1", "t", "d", "c"⟩], true) :=
  post_write_failure_logged_not_surfaced "u2" "2025-01-02T00:00:00.000Z"
    "t2" "d2" [⟨"u1", "t", "d", "c"⟩] (by decide) (by decide)

/-- C4.  For every create request with non-empty title and description
against a writable array-valued file, the handler returns the 201 created
response whose ticket carries exactly the supplied title and description
with the generated id and timestamp populated, and the subsequent
GET /tickets lists that same ticket with those same field values as its
last element. -/
theorem post_valid_creates_and_lists
    (id createdAt title description : String) (ts : List Ticket)
    (ht : title ≠ "") (hd : description ≠ "") :
    postTickets id createdAt true (JField.str title)
        (JField.str description) (FileContent.arr ts) =
      (PostResponse.created ⟨id, title, description, createdAt⟩,
        FileContent.arr (ts ++ [⟨id, title, description, createdAt⟩]),
        false) ∧
      (getTickets
          (FileContent.arr (ts ++ [⟨id, title, description, createdAt⟩]))).1 =
        GetResponse.okList (ts ++ [⟨id, title, description, createdAt⟩]) ∧
      (⟨id, title, description, createdAt⟩ : Ticket) ∈
        ts ++ [⟨id, title, description, createdAt⟩] := by
  refine ⟨?_, rfl, List.mem_append_right ts (List.mem_singleton.mpr rfl)⟩
  unfold postTickets
  simp [jsFalsy, ht, hd, readTickets, writeTickets, JField.asString]

/-- Witness for C4: the spec's example scenario against an empty store. -/
theorem post_valid_creates_and_lists_witness :
    postTickets "u1" "2025-01-01T00:00:00.000Z" true
        (JField.str "Fix login bug")
        (JField.str "Users cannot log in with special chars")
        (FileContent.arr []) =
      (PostResponse.created
          ⟨"u1", "Fix login bug", "Users cannot log in with special chars",
            "2025-01-01T00:00:00.000Z"⟩,
        FileContent.arr
          [⟨"u1", "Fix login bug", "Users cannot log in with special chars",
            "2025-01-01T00:00:00.000Z"⟩],
        false) :=
  (post_valid_creates_and_lists "u1" "2025-01-01T00:00:00.000Z"
    "Fix login bug" "Users cannot log in with special chars" []
    (by decide) (by decide)).1

/-- C6.  For every file state whose content reads back as an array `ts`
(a missing, unreadable or corrupt file reads back as the empty array), the
listing before a create is exactly `ts` in order; a create with valid
inputs on writable storage appends its ticket as the new last element, so
the listing afterwards equals the previous listing with the new ticket
appended; and listing an empty collection yields the empty sequence, not
an error. -/
theorem post_appends_and_get_preserves_order
    (fc : FileContent) (ts : List Ticket)
    (id createdAt title description : String)
    (hread : (readTickets fc).1 = ReadResult.arr ts)
    (ht : title ≠ "") (hd : description ≠ "") :
    (getTickets fc).1 = GetResponse.okList ts ∧
      (postTickets id createdAt true (JField.str title)
          (JField.str description) fc).1 =
        PostResponse.created ⟨id, title, description, createdAt⟩ ∧
      (postTickets id createdAt true (JField.str title)
          (JField.str description) fc).2.1 =
        FileContent.arr (ts ++ [⟨id, title, description, createdAt⟩]) ∧
      (getTickets
          (FileContent.arr (ts ++ [⟨id, title, description, createdAt⟩]))).1 =
        GetResponse.okList (ts ++ [⟨id, title, description, createdAt⟩]) ∧
      (getTickets (FileContent.arr [])).1 = GetResponse.okList [] := by
  cases fc <;>
    simp_all [readTickets, getTickets, postTickets, jsFalsy, writeTickets,
      JField.asString]

/-- Witness for C6: creating on a corrupt file (which reads back as the
empty array) appends to the empty listing. -/
theorem post_appends_and_get_preserves_order_witness :
    (getTickets FileContent.corrupt).1 = GetResponse.okList [] ∧
      (postTickets "u1" "c1" true (JField.str "t") (JField.str "d")
          FileContent.corrupt).2.1 =
        FileContent.arr [⟨"u1", "t", "d", "c1"⟩] :=
  ⟨(post_appends_and_get_preserves_order FileContent.corrupt [] "u1" "c1"
      "t" "d" rfl (by decide) (by decide)).1,
    (post_appends_and_get_preserves_order FileContent.corrupt [] "u1" "c1"
      "t" "d" rfl (by decide) (by decide)).2.2.1⟩

/-- A field that passes validation carries a non-empty string. -/
theorem asString_ne_empty_of_not_falsy (f : JField) (h : jsFalsy f = false) :
    f.asString ≠ "" := by
  cases f with
  | absent => simp [jsFalsy] at h
  | null => simp [jsFalsy] at h
  | str s => simpa [jsFalsy, JField.asString] using h

/-- Running a sequence of valid create requests over an array-valued file
appends their tickets in order and answers each with its 201 response. -/
theorem runReqs_valid_spec (reqs : List Req) :
    ∀ ts0 : List Ticket, (∀ r ∈ reqs, reqValid r) →
      runReqs reqs (FileContent.arr ts0) =
          FileContent.arr (ts0 ++ reqs.map mkTicket) ∧
        runResponses reqs (FileContent.arr ts0) =
          reqs.map fun r => PostResponse.created (mkTicket r) := by
  induction reqs with
  | nil => intro ts0 _; simp [runReqs, runResponses]
  | cons r rs ih =>
    intro ts0 h
    obtain ⟨h1, h2, h3⟩ := h r (by simp)
    have hstep : step r (FileContent.arr ts0) =
        (PostResponse.created (mkTicket r),
          FileContent.arr (ts0 ++ [mkTicket r]), false) := by
      unfold step postTickets
      simp [h1, h2, h3, readTickets, writeTickets, mkTicket]
    have hrs := ih (ts0 ++ [mkTicket r]) fun x hx => h x (by simp [hx])
    refine ⟨?_, ?_⟩
    · rw [runReqs, hstep]
      simpa [List.append_assoc] using hrs.1
    · rw [runResponses, hstep]
      simp [hrs.2]

/-- C2.  Requests are handled run-to-completion (the handler is fully
synchronous), so any set of concurrent create calls executes as a
sequence in some order; for every such order of N valid create calls with
pairwise-distinct titles over the empty store, every call completes with
its own 201 created response, and a subsequent GET /tickets returns
exactly N tickets whose titles are the N distinct request titles — no
lost update. -/
theorem concurrent_creates_no_lost_update (reqs : List Req)
    (hvalid : ∀ r ∈ reqs, reqValid r)
    (hdist : (reqs.map fun r => r.title.asString).Pairwise (· ≠ ·)) :
    runResponses reqs (FileContent.arr []) =
        (reqs.map fun r => PostResponse.created (mkTicket r)) ∧
      (getTickets (runReqs reqs (FileContent.arr []))).1 =
        GetResponse.okList (reqs.map mkTicket) ∧
      (reqs.map mkTicket).length = reqs.length ∧
      ((reqs.map mkTicket).map Ticket.title).Pairwise (· ≠ ·) ∧
      ∀ r ∈ reqs, r.title.asString ∈ (reqs.map mkTicket).map Ticket.title := by
  obtain ⟨hrun, hresp⟩ := runReqs_valid_spec reqs [] hvalid
  have htitles : (reqs.map mkTicket).map Ticket.title =
      reqs.map fun r => r.title.asString := by
    simp [mkTicket]
  refine ⟨hresp, ?_, by simp, ?_, ?_⟩
  · rw [hrun]; simp [getTickets, readTickets]
  · rw [htitles]; exact hdist
  · intro r hr
    rw [htitles]
    exact List.mem_map_of_mem _ hr

/-- Witness for C2: two concurrent creates with distinct titles both get
201 responses and both titles are listed afterwards. -/
theorem concurrent_creates_no_lost_update_witness :
    runResponses
        [⟨"u1", JField.str "t1", JField.str "d1", "c1", true⟩,
          ⟨"u2", JField.str "t2", JField.str "d2", "c2", true⟩]
        (FileContent.arr []) =
      [PostResponse.created ⟨"u1", "t1", "d1", "c1"⟩,
        PostResponse.created ⟨"u2", "t2", "d2", "c2"⟩] ∧
      (getTickets
          (runReqs
            [⟨"u1", JField.str "t1", JField.str "d1", "c1", true⟩,
              ⟨"u2", JField.str "t2", JField.str "d2", "c2", true⟩]
            (FileContent.arr []))).1 =
        GetResponse.okList
          [⟨"u1", "t1", "d1", "c1"⟩, ⟨"u2", "t2", "d2", "c2"⟩] := by
  have h := concurrent_creates_no_lost_update
    [⟨"u1", JField.str "t1", JField.str "d1", "c1", true⟩,
      ⟨"u2", JField.str "t2", JField.str "d2", "c2", true⟩]
    (by intro r hr; fin_cases hr <;> exact ⟨rfl, rfl, rfl⟩)
    (by simp [JField.asString])
  exact ⟨h.1, h.2.1⟩

/-- The ticket identifiers currently persisted (empty unless the file
holds an array). -/
def stateIds : FileContent → List String
  | FileContent.arr ts => ts.map Ticket.id
  | _ => []

/-- One create request either leaves the persisted identifiers unchanged
(rejected body, non-array file, or failed write) or appends exactly its
own generated identifier. -/
theorem step_stateIds (r : Req) (fc : FileContent) :
    stateIds (step r fc).2.1 = stateIds fc ∨
      stateIds (step r fc).2.1 = stateIds fc ++ [r.id] := by
  unfold step postTickets
  by_cases hb : (jsFalsy r.title || jsFalsy r.description) = true
  · left; simp [hb]
  · rw [Bool.not_eq_true] at hb
    cases hw : r.writable <;> cases fc <;>
      simp [hb, readTickets, writeTickets, stateIds, mkTicket]

/-- After any sequence of create requests, if the persisted identifiers
were pairwise distinct, the generated identifiers are pairwise distinct,
and no generated identifier collides with a persisted one, then the
persisted identifiers stay pairwise distinct. -/
theorem runReqs_ids_pairwise (reqs : List Req) :
    ∀ fc : FileContent, (stateIds fc).Pairwise (· ≠ ·) →
      (reqs.map Req.id).Pairwise (· ≠ ·) →
      (∀ r ∈ reqs, ∀ i ∈ stateIds fc, r.id ≠ i) →
      (stateIds (runReqs reqs fc)).Pairwise (· ≠ ·) := by
  induction reqs with
  | nil => intro fc h _ _; simpa [runReqs] using h
  | cons r rs ih =>
    intro fc hfc hreq hdis
    rw [List.map_cons, List.pairwise_cons] at hreq
    rw [runReqs]
    rcases step_stateIds r fc with heq | heq
    · exact ih _ (heq ▸ hfc) hreq.2
        fun x hx i hi => hdis x (by simp [hx]) i (heq ▸ hi)
    · refine ih _ ?_ hreq.2 ?_
      · rw [heq, List.pairwise_append]
        refine ⟨hfc, List.pairwise_singleton _ _, ?_⟩
        intro a ha b hb
        rw [List.mem_singleton] at hb
        subst hb
        exact fun hab => hdis r (by simp) a ha hab.symm
      · intro x hx i hi
        rw [heq, List.mem_append, List.mem_singleton] at hi
        rcases hi with hi | hi
        · exact hdis x (by simp [hx]) i hi
        · subst hi
          exact fun hxe => (hreq.1 x.id (List.mem_map_of_mem Req.id hx)) hxe.symm

/-- C8.  Over the lifetime of the store — starting from the collection
initializeTicketsFile creates on first start — any sequence of create
requests leaves the persisted identifiers pairwise distinct, provided the
environment's uuidv4 draws (modelled as the requests' id components) never
repeat: no two tickets ever share an id. -/
theorem create_ids_pairwise_distinct (reqs : List Req)
    (h : (reqs.map Req.id).Pairwise (· ≠ ·)) :
    (stateIds
        (runReqs reqs (initializeTicketsFile FileContent.absent))).Pairwise
      (· ≠ ·) := by
  have : initializeTicketsFile FileContent.absent = FileContent.arr [] := rfl
  rw [this]
  exact runReqs_ids_pairwise reqs (FileContent.arr [])
    (by simp [stateIds]) h (by simp [stateIds])

/-- Witness for C8: two creates with distinct uuids leave two distinct
persisted identifiers. -/
theorem create_ids_pairwise_distinct_witness :
    (stateIds
        (runReqs
          [⟨"u1", JField.str "t1", JField.str "d1", "c1", true⟩,
            ⟨"u2", JField.str "t2", JField.str "d2", "c2", true⟩]
          (initializeTicketsFile FileContent.absent))).Pairwise (· ≠ ·) :=
  create_ids_pairwise_distinct
    [⟨"u1", JField.str "t1", JField.str "d1", "c1", true⟩,
      ⟨"u2", JField.str "t2", JField.str "d2", "c2", true⟩]
    (by simp)

/-- Every persisted ticket has non-empty title and description. -/
def stateFieldsOK : FileContent → Prop
  | FileContent.arr ts => ∀ t ∈ ts, t.title ≠ "" ∧ t.description ≠ ""
  | _ => True

/-- One create request preserves non-emptiness of the persisted title and
description fields: validation runs before persistence, so only tickets
with non-empty fields are ever appended. -/
theorem step_preserves_fieldsOK (r : Req) (fc : FileContent)
    (h : stateFieldsOK fc) : stateFieldsOK (step r fc).2.1 := by
  unfold step postTickets
  by_cases hb : (jsFalsy r.title || jsFalsy r.description) = true
  · simpa [hb] using h
  · rw [Bool.not_eq_true, Bool.or_eq_false_iff] at hb
    have ht := asString_ne_empty_of_not_falsy r.title hb.1
    have hd := asString_ne_empty_of_not_falsy r.description hb.2
    cases hw : r.writable <;> cases fc <;>
      simp_all [readTickets, writeTickets, stateFieldsOK, mkTicket]
    intro t htm
    rcases htm with htm | htm
    · exact h t htm
    · subst htm
      exact ⟨ht, hd⟩

/-- C9.  For any sequence of create requests (valid or not, with writable
or failing storage at each step), if every persisted ticket had non-empty
title and description before, the same holds for every persisted ticket
afterwards: non-emptiness is enforced before persistence and is an
invariant of the stored collection. -/
theorem persisted_fields_nonempty_invariant (reqs : List Req) :
    ∀ fc : FileContent, stateFieldsOK fc →
      stateFieldsOK (runReqs reqs fc) := by
  induction reqs with
  | nil => intro fc h; simpa [runReqs] using h
  | cons r rs ih =>
    intro fc h
    rw [runReqs]
    exact ih _ (step_preserves_fieldsOK r fc h)

/-- Witness for C9: after one valid create on the fresh empty store, the
single persisted ticket has non-empty title and description. -/
theorem persisted_fields_nonempty_invariant_witness :
    stateFieldsOK
      (runReqs [⟨"u1", JField.str "t1", JField.str "d1", "c1", true⟩]
        (FileContent.arr [])) :=
  persisted_fields_nonempty_invariant
    [⟨"u1", JField.str "t1", JField.str "d1", "c1", true⟩]
    (FileContent.arr []) (by simp [stateFieldsOK])
